import Mathlib

/-!
Shallow embedding of the `trade-backend` request-orchestration core:

* `src/app/api/dependencies.py` — identity resolution (`get_current_user`),
  session bucketing (`get_user_session`), sector validation
  (`validate_sector_name`), session expiry (`cleanup_old_sessions`);
* `src/app/services/analysis.py` — the orchestrator
  (`MarketAnalysisService.analyze_sector`) with its in-memory cache;
* `src/app/services/gemini.py` — report synthesis
  (`GeminiService.analyze_sector_data`) and the deterministic fallback
  (`_generate_fallback_analysis`).

Python strings are modelled as Lean `String`s over their character data
(ASCII scope for the case/whitespace helpers), timestamps as natural-number
seconds, Python dicts used as tables as functions into `Option`, and the
external collaborators (token verification, user lookup, web search, the
generative backend) as explicit parameters; an awaited collaborator that can
raise is given an `Except` outcome.
-/

namespace TradeBackend

/-- ASCII whitespace characters recognised by Python's `str.strip` and the
regex class `\s` (space, tab, newline, carriage return, vertical tab,
form feed). -/
def isPySpace (c : Char) : Bool :=
  c = ' ' || c = '\t' || c = '\n' || c = '\x0d' || c = '\x0b' || c = '\x0c'

/-- Python `str.strip()`: drop leading and trailing whitespace. -/
def pyStrip (s : String) : String :=
  ⟨((s.data.dropWhile isPySpace).reverse.dropWhile isPySpace).reverse⟩

/-- Python `str.lower()` restricted to ASCII letters. -/
def pyLower (s : String) : String :=
  ⟨s.data.map Char.toLower⟩

/-- Characters accepted by the validator's regex `^[a-zA-Z0-9\s\-_]+$`
(`src/app/api/dependencies.py` line 152). -/
def isSectorChar (c : Char) : Bool :=
  c.isAlpha || c.isDigit || isPySpace c || c = '-' || c = '_'

/-- `validate_sector_name` (`src/app/api/dependencies.py` lines 115-171):
rejects an empty raw string, then strips and lowercases, then checks the
cleaned string's length (2..50) and character set; returns the cleaned
sector on success, the HTTP 400 detail string on failure.  The
known-sector whitelist only logs and never rejects. -/
def validate_sector_name (sector : String) : Except String String :=
  if sector = "" then
    .error "Sector name cannot be empty"
  else
    let cleaned_sector := pyLower (pyStrip sector)
    if cleaned_sector.length < 2 then
      .error "Sector name must be at least 2 characters long"
    else if cleaned_sector.length > 50 then
      .error "Sector name must be less than 50 characters"
    else if ¬ (cleaned_sector.data.all isSectorChar) then
      .error "Sector name contains invalid characters. Use only letters, numbers, spaces, hyphens, and underscores."
    else
      .ok cleaned_sector

/-- The spec's validity predicate for C6, read off the spec's words: the
raw string is nonempty and its strip-and-lowercase normalisation has
length 2..50 and uses only the allowed character class. -/
def specValidSector (sector : String) : Prop :=
  sector ≠ "" ∧
  2 ≤ (pyLower (pyStrip sector)).length ∧
  (pyLower (pyStrip sector)).length ≤ 50 ∧
  (pyLower (pyStrip sector)).data.all isSectorChar = true

instance (sector : String) : Decidable (specValidSector sector) := by
  unfold specValidSector; infer_instance

/-- Fuel-indexed decimal rendering; with fuel above the value it agrees
with ordinary most-significant-first decimal digits. -/
def natDigitsAux : Nat → Nat → List Char
  | 0, _ => []
  | fuel + 1, n =>
    if n < 10 then [Nat.digitChar n]
    else natDigitsAux fuel (n / 10) ++ [Nat.digitChar (n % 10)]

/-- Decimal digits of a natural number, most significant first: the
rendering Python's f-string applies to `int(time.time() // 3600)` in
`get_user_session`. -/
def natDigits (n : Nat) : List Char := natDigitsAux (n + 1) n

/-- Decimal string of a natural number. -/
def natRepr (n : Nat) : String := ⟨natDigits n⟩

/-- Numeric value of a decimal digit character. -/
def digitVal (c : Char) : Nat := c.toNat - 48

/-- Read a digit string back into a number. -/
def valFold (l : List Char) : Nat := l.foldl (fun a c => 10 * a + digitVal c) 0

theorem digitVal_digitChar (n : Nat) (h : n < 10) :
    digitVal (Nat.digitChar n) = n := by
  interval_cases n <;> rfl

theorem valFold_natDigitsAux (fuel : Nat) :
    ∀ n, n < fuel → valFold (natDigitsAux fuel n) = n := by
  induction fuel with
  | zero => intro n h; omega
  | succ fuel ih =>
    intro n hn
    by_cases h : n < 10
    · rw [natDigitsAux, if_pos h]
      simp [valFold, digitVal_digitChar n h]
    · rw [natDigitsAux, if_neg h]
      have hdiv : n / 10 < fuel :=
        lt_of_lt_of_le (Nat.div_lt_self (by omega) (by omega)) (by omega)
      have hrec := ih (n / 10) hdiv
      simp only [valFold, List.foldl_append, List.foldl_cons, List.foldl_nil]
      simp only [valFold] at hrec
      rw [hrec, digitVal_digitChar (n % 10) (Nat.mod_lt n (by omega))]
      omega

theorem valFold_natDigits (n : Nat) : valFold (natDigits n) = n :=
  valFold_natDigitsAux (n + 1) n (Nat.lt_succ_self n)

theorem natRepr_injective : Function.Injective natRepr := by
  intro m n h
  have : natDigits m = natDigits n := congrArg String.data h
  have := congrArg valFold this
  rwa [valFold_natDigits, valFold_natDigits] at this

/-- `SessionRecord`: the value stored in `session_store` by
`get_user_session` (`src/app/api/dependencies.py` lines 100-111).
`last_seen` is absent at initialisation and set on every call. -/
structure SessionRecord where
  username : String
  ip : String
  created_at : Nat
  request_count : Nat
  is_guest : Bool
  last_seen : Option Nat
deriving DecidableEq, Repr

/-- The process-wide session table, a Python dict keyed by session key. -/
def SessionStore : Type := String → Option SessionRecord

/-- The composite session key `f"{username}_{client_ip}_{int(time.time() // 3600)}"`
(`src/app/api/dependencies.py` line 97). -/
def session_key_of (username client_ip : String) (now : Nat) : String :=
  username ++ "_" ++ client_ip ++ "_" ++ natRepr (now / 3600)

/-- `get_user_session` (`src/app/api/dependencies.py` lines 82-113):
builds the hour-bucketed session key, initialises the record with
`request_count = 0` if absent, then increments `request_count` and sets
`last_seen`, returning the key and the updated store. -/
def get_user_session (store : SessionStore) (username client_ip : String)
    (is_guest : Bool) (now : Nat) : String × SessionStore :=
  let session_key := session_key_of username client_ip now
  let base : SessionRecord :=
    match store session_key with
    | some r => r
    | none =>
        { username := username, ip := client_ip, created_at := now,
          request_count := 0, is_guest := is_guest, last_seen := none }
  let updated : SessionRecord :=
    { base with request_count := base.request_count + 1, last_seen := some now }
  (session_key, fun k => if k = session_key then some updated else store k)

/-- `cleanup_old_sessions` (`src/app/api/dependencies.py` lines 173-187):
removes every record whose age since `created_at` exceeds 86400 seconds
(24 hours); all other records are kept as they are. -/
def cleanup_old_sessions (store : SessionStore) (current_time : Nat) : SessionStore :=
  fun k =>
    match store k with
    | some r => if current_time - r.created_at > 86400 then none else some r
    | none => none

/-- The decoded JWT payload: `payload.get("sub")` may be absent. -/
structure TokenPayload where
  sub : Option String
deriving DecidableEq, Repr

/-- A user database record, as consulted by `get_user`:
`user["username"]` and the truthiness of `user.get("disabled")`. -/
structure UserRecord where
  username : String
  disabled : Bool
deriving DecidableEq, Repr

/-- The dict returned by `get_current_user`: the guest dict carries no
`authenticated` key (`none`), the authenticated dict sets it to `True`. -/
structure CurrentUser where
  username : String
  is_guest : Bool
  authenticated : Option Bool
deriving DecidableEq, Repr

/-- An `HTTPException`: status code and detail string. -/
structure HTTPError where
  status_code : Nat
  detail : String
deriving DecidableEq, Repr

/-- `get_current_user` (`src/app/api/dependencies.py` lines 28-80).
`verify` models `verify_token` (may raise: `.error` carries the exception
text) and `get_user` models the user lookup, both defined in
`app/utils/auth.py` outside this tree and treated as collaborator
parameters.  Absent credentials yield the guest dict; inside the `try`,
a raised `HTTPException` is re-raised unchanged and any other exception
becomes a generic 401. -/
def get_current_user (verify : String → Except String TokenPayload)
    (get_user : String → Option UserRecord)
    (credentials : Option String) : Except HTTPError CurrentUser :=
  match credentials with
  | none => .ok { username := "guest", is_guest := true, authenticated := none }
  | some tok =>
    match verify tok with
    | .error _ => .error { status_code := 401, detail := "Could not validate credentials" }
    | .ok payload =>
      match payload.sub with
      | none => .error { status_code := 401, detail := "Could not validate credentials" }
      | some username =>
        match get_user username with
        | none => .error { status_code := 401, detail := "User not found" }
        | some user =>
          if user.disabled then
            .error { status_code := 400, detail := "Inactive user" }
          else
            .ok { username := user.username, is_guest := false, authenticated := some true }

/-- `NewsItem` as built by `_search_sector_news` / consumed by the
synthesiser via `item.get(...)`: absent keys are `none`. -/
structure NewsItem where
  title : Option String
  snippet : Option String
  url : Option String
  source : Option String
deriving DecidableEq, Repr

/-- The market-data dict built by `_collect_market_data`
(`src/app/services/analysis.py` lines 65-97). -/
structure MarketData where
  news : List NewsItem
  sources : List String
  sector : String
  error : Option String
deriving DecidableEq, Repr

/-- `_collect_market_data`: starts from the empty data dict; if the news
search (an awaited collaborator, outcome `newsOutcome`) succeeds its items
become `news` and `"DuckDuckGo Search"` is appended to `sources`; if it
raises, the exception text is stored under `error` and the partial dict is
returned.  The function itself never raises. -/
def collect_market_data (newsOutcome : Except String (List NewsItem))
    (sector : String) : MarketData :=
  match newsOutcome with
  | .ok items =>
      { news := items, sources := ["DuckDuckGo Search"], sector := sector, error := none }
  | .error e =>
      { news := [], sources := [], sector := sector, error := some e }

/-- Python `str.title()` restricted to ASCII: a letter is uppercased when
the previous character is not a letter, lowercased otherwise. -/
def pyTitleAux : List Char → Bool → List Char
  | [], _ => []
  | c :: rest, prevAlpha =>
    (if c.isAlpha then (if prevAlpha then c.toLower else c.toUpper) else c)
      :: pyTitleAux rest c.isAlpha

/-- Python `sector.title()`. -/
def pyTitle (s : String) : String := ⟨pyTitleAux s.data false⟩

/-- The `news_summary` join in `_create_analysis_prompt`
(`src/app/services/gemini.py` lines 51-54). -/
def news_summary (market_data : MarketData) : String :=
  String.intercalate "\n" ((market_data.news.take 5).map (fun item =>
    "- " ++ item.title.getD "No title" ++ ": " ++ item.snippet.getD "No summary"))

/-- `_create_analysis_prompt` (`src/app/services/gemini.py` lines 48-103):
the indented f-string passed to the generative backend, with newlines and
the source's indentation made explicit. -/
def create_analysis_prompt (sector : String) (market_data : MarketData) : String :=
  "\n        As a market analyst specializing in Indian markets, analyze the "
    ++ sector ++ " sector and provide trade opportunities.\n" ++
  "        \n" ++
  "        Current Market Information:\n" ++
  "        " ++ news_summary market_data ++ "\n" ++
  "        \n" ++
  "        Please provide a comprehensive markdown analysis report with the following structure:\n" ++
  "        \n" ++
  "        # " ++ pyTitle sector ++ " Sector Analysis Report\n" ++
  "        \n" ++
  "        ## Executive Summary\n" ++
  "        Provide a 2-3 sentence overview of the current state and opportunities.\n" ++
  "        \n" ++
  "        ## Market Overview\n" ++
  "        - Current market size and growth trends\n" ++
  "        - Key players and market dynamics\n" ++
  "        - Recent developments affecting the sector\n" ++
  "        \n" ++
  "        ## Trade Opportunities\n" ++
  "        ### Short-term Opportunities (1-3 months)\n" ++
  "        - List 3-5 specific opportunities with brief explanations\n" ++
  "        \n" ++
  "        ### Medium-term Opportunities (3-12 months)  \n" ++
  "        - List 3-5 opportunities with market drivers\n" ++
  "        \n" ++
  "        ### Long-term Opportunities (1-3 years)\n" ++
  "        - List 2-3 strategic opportunities\n" ++
  "        \n" ++
  "        ## Risk Analysis\n" ++
  "        - Key risks and challenges\n" ++
  "        - Mitigation strategies\n" ++
  "        \n" ++
  "        ## Investment Recommendations\n" ++
  "        - Recommended investment strategies\n" ++
  "        - Entry and exit points to consider\n" ++
  "        \n" ++
  "        ## Key Metrics to Monitor\n" ++
  "        - Important indicators to track\n" ++
  "        - Regulatory changes to watch\n" ++
  "        \n" ++
  "        ## Conclusion\n" ++
  "        Summary of key takeaways and next steps.\n" ++
  "        \n" ++
  "        Focus on Indian market context, current economic conditions, and provide actionable insights.\n" ++
  "        Make sure all recommendations are based on the provided market data and current trends.\n" ++
  "        "

/-- The first chunk of the fallback report template
(`src/app/services/gemini.py` lines 110-118). -/
def fallback_header (sector : String) : String :=
  "# " ++ pyTitle sector ++ " Sector Analysis Report\n" ++
  "\n" ++
  "## Executive Summary\n" ++
  "Based on current market data, the " ++ sector
    ++ " sector in India shows mixed signals with both opportunities and challenges present in the current economic environment.\n" ++
  "\n" ++
  "## Market Overview\n" ++
  "The " ++ sector
    ++ " sector is experiencing dynamic changes driven by various economic and regulatory factors. Recent developments suggest:\n" ++
  "\n"

/-- The closing chunk of the fallback report template
(`src/app/services/gemini.py` lines 127-168). -/
def fallback_body (sector : String) : String :=
  "\n" ++
  "## Trade Opportunities\n" ++
  "\n" ++
  "### Short-term Opportunities (1-3 months)\n" ++
  "- Monitor daily price movements and volatility patterns\n" ++
  "- Look for sector-specific news that could drive short-term price action\n" ++
  "- Consider technical analysis for entry and exit points\n" ++
  "\n" ++
  "### Medium-term Opportunities (3-12 months)\n" ++
  "- Evaluate fundamental changes in sector regulation\n" ++
  "- Assess impact of government policies on " ++ sector ++ " companies\n" ++
  "- Monitor quarterly earnings trends\n" ++
  "\n" ++
  "### Long-term Opportunities (1-3 years)\n" ++
  "- Consider structural changes in the Indian economy\n" ++
  "- Evaluate demographic trends affecting " ++ sector ++ " demand\n" ++
  "- Assess technological disruption potential\n" ++
  "\n" ++
  "## Risk Analysis\n" ++
  "- **Market Risk**: General market volatility could affect sector performance\n" ++
  "- **Regulatory Risk**: Changes in government policies\n" ++
  "- **Economic Risk**: Broader economic slowdown impact\n" ++
  "- **Competition Risk**: Increased competition from domestic and international players\n" ++
  "\n" ++
  "## Investment Recommendations\n" ++
  "- Diversify across multiple companies within the sector\n" ++
  "- Consider both large-cap stability and mid-cap growth potential\n" ++
  "- Monitor key economic indicators that affect the " ++ sector ++ " sector\n" ++
  "- Maintain appropriate position sizing based on risk tolerance\n" ++
  "\n" ++
  "## Key Metrics to Monitor\n" ++
  "- Sector-specific growth rates\n" ++
  "- Government policy announcements\n" ++
  "- Export/import data (if applicable)\n" ++
  "- Raw material costs and availability\n" ++
  "- Consumer demand trends\n" ++
  "\n" ++
  "## Conclusion\n" ++
  "The " ++ sector
    ++ " sector presents various opportunities for traders and investors. Success will depend on careful analysis of market conditions, proper risk management, and staying informed about sector-specific developments.\n" ++
  "\n" ++
  "*Note: This analysis is based on available market data and should not be considered as financial advice. Please consult with financial advisors before making investment decisions.*\n"

/-- `_generate_fallback_analysis` (`src/app/services/gemini.py` lines
105-170): header, then (when news items exist) a recent-news section built
from the first three items with `item.get` defaults, then the closing
template chunk.  A pure function of `(sector, market_data)`. -/
def generate_fallback_analysis (sector : String) (market_data : MarketData) : String :=
  let news_items := market_data.news
  let report := fallback_header sector
  let report :=
    if news_items.isEmpty then report
    else
      report ++ "### Recent Market News:\n" ++
        String.join ((news_items.take 3).map (fun item =>
          "- **" ++ item.title.getD "Market Update" ++ "**: "
            ++ item.snippet.getD "No details available" ++ "\n"))
  report ++ fallback_body sector

/-- `GeminiService.analyze_sector_data` (`src/app/services/gemini.py`
lines 17-46).  `gen` models `self.model.generate_content`: `none` when the
API key is unconfigured; otherwise `.ok` carries `response.text` (possibly
empty, which Python treats as falsy) and `.error` a raised exception.
Every failure route returns the deterministic fallback. -/
def analyze_sector_data (gen : Option (String → Except String String))
    (sector : String) (market_data : MarketData) : String :=
  match gen with
  | none => generate_fallback_analysis sector market_data
  | some model =>
    match model (create_analysis_prompt sector market_data) with
    | .ok text =>
        if text = "" then generate_fallback_analysis sector market_data else text
    | .error _ => generate_fallback_analysis sector market_data

/-- The response dict built by `MarketAnalysisService.analyze_sector`
(`src/app/services/analysis.py` lines 42-48 and 57-63).  A `none` field
models a key absent from the dict: the success dict carries no `error`
key and the error dict carries no `data_sources` key. -/
structure AnalysisResult where
  sector : String
  analysis : String
  data_sources : Option (List String)
  generated_at : String
  status : String
  error : Option String
deriving DecidableEq, Repr

/-- `self.session_cache`, the in-memory dict keyed by
`f"{user_session}_{sector}"`. -/
def AnalysisCache : Type := String → Option AnalysisResult

/-- The sanitized analysis body of the error dict
(`src/app/services/analysis.py` line 59). -/
def error_analysis_text (sector : String) : String :=
  "# Error Analyzing " ++ pyTitle sector
    ++ " Sector\n\nWe encountered an error while analyzing this sector. Please try again later."

/-- The dict returned from the `except` branch of `analyze_sector`
(`src/app/services/analysis.py` lines 57-63): generic analysis body,
`error` set to `str(e)`, `status = "error"`, no `data_sources` key. -/
def error_result (sector e now : String) : AnalysisResult :=
  { sector := sector, analysis := error_analysis_text sector,
    data_sources := none, generated_at := now,
    status := "error", error := some e }

/-- `MarketAnalysisService.analyze_sector` (`src/app/services/analysis.py`
lines 17-63).  The two awaited pipeline stages are passed as outcomes:
`collectOutcome` for `await self._collect_market_data(sector)` and
`synthOutcome` for `await self.gemini_service.analyze_sector_data(...)`;
an `.error` outcome models an unexpected exception raised by that stage,
landing in the `except` branch.  `now` models `_get_current_timestamp()`.
Returns the result dict together with the cache after the call: on a
cache hit the cached dict is returned unchanged; on a successful pipeline
the success dict is stored under the cache key; the `except` branch
returns the error dict WITHOUT storing it. -/
def analyze_sector (collectOutcome : Except String MarketData)
    (synthOutcome : MarketData → Except String String)
    (now : String) (cache : AnalysisCache)
    (sector user_session : String) : AnalysisResult × AnalysisCache :=
  let cache_key := user_session ++ "_" ++ sector
  match cache cache_key with
  | some cached => (cached, cache)
  | none =>
    match collectOutcome with
    | .error e => (error_result sector e now, cache)
    | .ok market_data =>
      match synthOutcome market_data with
      | .error e => (error_result sector e now, cache)
      | .ok analysis_report =>
        let result : AnalysisResult :=
          { sector := sector, analysis := analysis_report,
            data_sources := some market_data.sources,
            generated_at := now, status := "success", error := none }
        (result, fun k => if k = cache_key then some result else cache k)

/-- A concrete market-data value used by witnesses and counterexamples. -/
def mdEx : MarketData :=
  { news := [{ title := some "T", snippet := some "S",
               url := some "U", source := some "DuckDuckGo" }],
    sources := ["DuckDuckGo Search"], sector := "technology", error := none }

/-- Session keys built for the same identity and origin but distinct hour
buckets are distinct strings. -/
theorem session_key_of_ne (u ip : String) (t t' : Nat)
    (h : t / 3600 ≠ t' / 3600) :
    session_key_of u ip t ≠ session_key_of u ip t' := by
  intro hk
  apply h
  unfold session_key_of at hk
  have hd := congrArg String.data hk
  simp only [String.data_append] at hd
  have h1 := List.append_cancel_left hd
  have h5 : natRepr (t / 3600) = natRepr (t' / 3600) := by
    show (⟨(natRepr (t / 3600)).data⟩ : String) = ⟨(natRepr (t' / 3600)).data⟩
    rw [h1]
  exact natRepr_injective h5

/-- When the pipeline faults (the collection stage raises, or collection
succeeds and the synthesis stage raises), `analyze_sector` on a cache miss
lands in the `except` branch: it returns the error dict and leaves the
cache untouched. -/
theorem analyze_sector_fault (collectOutcome : Except String MarketData)
    (synthOutcome : MarketData → Except String String)
    (now : String) (cache : AnalysisCache) (sector user_session e : String)
    (hmiss : cache (user_session ++ "_" ++ sector) = none)
    (hfault : collectOutcome = .error e ∨
      ∃ md, collectOutcome = .ok md ∧ synthOutcome md = .error e) :
    analyze_sector collectOutcome synthOutcome now cache sector user_session
      = (error_result sector e now, cache) := by
  rcases hfault with hcol | ⟨md, hcol, hsyn⟩
  · simp [analyze_sector, hmiss, hcol]
  · simp [analyze_sector, hmiss, hcol, hsyn]

/-- When the pipeline completes (collection and synthesis both return),
`analyze_sector` on a cache miss builds the success dict and stores it
under the cache key. -/
theorem analyze_sector_success (synthOutcome : MarketData → Except String String)
    (md : MarketData) (rep : String)
    (now : String) (cache : AnalysisCache) (sector user_session : String)
    (hmiss : cache (user_session ++ "_" ++ sector) = none)
    (hsyn : synthOutcome md = .ok rep) :
    analyze_sector (.ok md) synthOutcome now cache sector user_session
      = ({ sector := sector, analysis := rep, data_sources := some md.sources,
           generated_at := now, status := "success", error := none },
         fun k => if k = user_session ++ "_" ++ sector
           then some { sector := sector, analysis := rep,
                       data_sources := some md.sources, generated_at := now,
                       status := "success", error := none }
           else cache k) := by
  simp [analyze_sector, hmiss, hsyn]

/-- C6, counterexample: `"a "` has exactly 2 characters, both drawn from
the claim's allowed class (a letter and a space), yet the validator
rejects it, because validation is applied to the stripped string `"a"` of
length 1. -/
theorem C6_counterexample :
    "a ".length = 2 ∧ "a ".data.all isSectorChar = true ∧
    validate_sector_name "a "
      = .error "Sector name must be at least 2 characters long" :=
  ⟨rfl, by decide, rfl⟩

/-- C6, amended: the validator normalises first (strip, then lowercase)
and decides on the normalised string: it accepts exactly the nonempty raw
strings whose normalisation has length 2..50 and uses only letters,
digits, whitespace, hyphens and underscores; every other input is
rejected with a client-error detail. -/
theorem C6_validate_sector_name_iff (sector : String) :
    (validate_sector_name sector = .ok (pyLower (pyStrip sector))
      ↔ specValidSector sector) ∧
    ((validate_sector_name sector).isOk = false ↔ ¬ specValidSector sector) := by
  unfold validate_sector_name specValidSector
  simp only []
  split_ifs with h1 h2 h3 h4 <;>
    simp_all [Except.isOk, Except.toBool]

/-- C1, counterexample: with an empty cache and a collection stage that
raises `"boom"`, `analyze_sector` returns the `status=error` dict, but the
cache afterwards still has no entry under the `(session, sector)` key —
the error result is not stored, so the repeated request cannot be served
from the cache. -/
theorem C1_counterexample :
    (analyze_sector (.error "boom") (fun _ => .ok "report") "t0"
        (fun _ => none) "technology" "sess").1.status = "error" ∧
    (analyze_sector (.error "boom") (fun _ => .ok "report") "t0"
        (fun _ => none) "technology" "sess").2 "sess_technology" = none :=
  ⟨rfl, rfl⟩

/-- C1, amended: for every analyze request in which the
collection/synthesis pipeline raises an unexpected fault, the orchestrator
produces an AnalysisResult with status=error that is returned to the
caller but NOT stored in the analysis cache — the cache is left exactly as
it was, so an immediately repeated identical request within the same
session bucket re-runs the pipeline instead of being served from the
cache. -/
theorem C1_error_result_not_cached (collectOutcome : Except String MarketData)
    (synthOutcome : MarketData → Except String String)
    (now : String) (cache : AnalysisCache) (sector user_session e : String)
    (hmiss : cache (user_session ++ "_" ++ sector) = none)
    (hfault : collectOutcome = .error e ∨
      ∃ md, collectOutcome = .ok md ∧ synthOutcome md = .error e) :
    (analyze_sector collectOutcome synthOutcome now cache sector user_session).1.status
        = "error" ∧
    (analyze_sector collectOutcome synthOutcome now cache sector user_session).2
        = cache := by
  rw [analyze_sector_fault collectOutcome synthOutcome now cache sector
        user_session e hmiss hfault]
  exact ⟨rfl, rfl⟩

/-- C1 witness: a concrete faulting run satisfying the hypotheses. -/
theorem C1_witness :
    (analyze_sector (.error "boom") (fun _ => .ok "report") "t0"
        (fun _ => none) "technology" "s").1.status = "error" ∧
    (analyze_sector (.error "boom") (fun _ => .ok "report") "t0"
        (fun _ => none) "technology" "s").2 = (fun _ => none) :=
  C1_error_result_not_cached (.error "boom") (fun _ => .ok "report") "t0"
    (fun _ => none) "technology" "s" "boom" rfl (Or.inl rfl)

/-- C2: on a cache hit, `analyze_sector` returns exactly the stored result
and leaves the cache untouched, independently of the collection and
synthesis collaborators (so neither runs); consequently, after a first
call that stored a result, an identical second call returns the identical
result with zero data-collection invocations. -/
theorem C2_cache_hit_idempotent (cache : AnalysisCache)
    (sector user_session : String) (md : MarketData) (rep : String)
    (synth1 : MarketData → Except String String) (now1 : String)
    (hmiss : cache (user_session ++ "_" ++ sector) = none)
    (hsyn : synth1 md = .ok rep) :
    (∀ (c : AnalysisCache) (r : AnalysisResult),
      c (user_session ++ "_" ++ sector) = some r →
      ∀ collectOutcome synthOutcome now,
        analyze_sector collectOutcome synthOutcome now c sector user_session
          = (r, c)) ∧
    ((analyze_sector (.ok md) synth1 now1 cache sector user_session).2
        (user_session ++ "_" ++ sector)
      = some (analyze_sector (.ok md) synth1 now1 cache sector user_session).1) ∧
    (∀ collectOutcome2 synthOutcome2 now2,
      analyze_sector collectOutcome2 synthOutcome2 now2
          (analyze_sector (.ok md) synth1 now1 cache sector user_session).2
          sector user_session
        = ((analyze_sector (.ok md) synth1 now1 cache sector user_session).1,
           (analyze_sector (.ok md) synth1 now1 cache sector user_session).2)) := by
  have hhit : ∀ (c : AnalysisCache) (r : AnalysisResult),
      c (user_session ++ "_" ++ sector) = some r →
      ∀ collectOutcome synthOutcome now,
        analyze_sector collectOutcome synthOutcome now c sector user_session
          = (r, c) := by
    intro c r hr collectOutcome synthOutcome now
    simp [analyze_sector, hr]
  have hrun := analyze_sector_success synth1 md rep now1 cache sector
    user_session hmiss hsyn
  have hstored : (analyze_sector (.ok md) synth1 now1 cache sector user_session).2
      (user_session ++ "_" ++ sector)
      = some (analyze_sector (.ok md) synth1 now1 cache sector user_session).1 := by
    rw [hrun]; simp
  refine ⟨hhit, hstored, ?_⟩
  intro collectOutcome2 synthOutcome2 now2
  exact hhit _ _ hstored collectOutcome2 synthOutcome2 now2

/-- C2 witness: a concrete first call stores its result and the repeated
call (with collaborators that would fail if consulted) returns exactly the
stored pair. -/
theorem C2_witness :
    analyze_sector (.error "would recollect") (fun _ => .error "would resynthesize")
        "t2"
        (analyze_sector (.ok mdEx) (fun _ => .ok "report") "t1"
          (fun _ => none) "technology" "s").2 "technology" "s"
      = ((analyze_sector (.ok mdEx) (fun _ => .ok "report") "t1"
            (fun _ => none) "technology" "s").1,
         (analyze_sector (.ok mdEx) (fun _ => .ok "report") "t1"
            (fun _ => none) "technology" "s").2) :=
  (C2_cache_hit_idempotent (fun _ => none) "technology" "s" mdEx "report"
      (fun _ => .ok "report") "t1" rfl rfl).2.2
    (.error "would recollect") (fun _ => .error "would resynthesize") "t2"

/-- The synthesis stage as actually wired in `analyze_sector`: the awaited
`GeminiService.analyze_sector_data` call returns normally on every input
(all its failure routes fall back internally). -/
def geminiSynth (gen : Option (String → Except String String))
    (sector : String) : MarketData → Except String String :=
  fun market_data => .ok (analyze_sector_data gen sector market_data)

/-- C3, counterexample: on the same fixed input, a run whose generative
backend succeeds (returning a nonempty completion) and a run with the
backend unconfigured (deterministic fallback) both produce
`status = "success"` — the status values are equal, not different. -/
theorem C3_counterexample :
    (analyze_sector (.ok mdEx)
        (geminiSynth (some (fun _ => .ok "AI generated report")) "technology")
        "t0" (fun _ => none) "technology" "s").1.status
      = (analyze_sector (.ok mdEx) (geminiSynth none "technology")
          "t0" (fun _ => none) "technology" "s").1.status :=
  rfl

/-- C3, amended: report synthesis always yields some AnalysisResult, but
its `status` does not reflect which path produced the analysis text: on a
cache miss with collection completed, the result has `status = "success"`
for every backend configuration (succeeding, failing, or unconfigured),
the analysis text being the backend completion or the deterministic
fallback; `status = "error"` arises only from an unexpected pipeline
fault. -/
theorem C3_status_independent_of_path
    (gen : Option (String → Except String String)) (md : MarketData)
    (now : String) (cache : AnalysisCache) (sector user_session : String)
    (hmiss : cache (user_session ++ "_" ++ sector) = none) :
    (analyze_sector (.ok md) (geminiSynth gen sector) now cache
        sector user_session).1.status = "success" ∧
    (analyze_sector (.ok md) (geminiSynth gen sector) now cache
        sector user_session).1.analysis
      = analyze_sector_data gen sector md := by
  rw [analyze_sector_success (geminiSynth gen sector) md
        (analyze_sector_data gen sector md) now cache sector user_session hmiss rfl]
  exact ⟨rfl, rfl⟩

/-- C3 witness: concrete fallback-path run with the backend unconfigured. -/
theorem C3_witness :
    (analyze_sector (.ok mdEx) (geminiSynth none "technology") "t0"
        (fun _ => none) "technology" "s").1.status = "success" ∧
    (analyze_sector (.ok mdEx) (geminiSynth none "technology") "t0"
        (fun _ => none) "technology" "s").1.analysis
      = analyze_sector_data none "technology" mdEx :=
  C3_status_independent_of_path none mdEx "t0" (fun _ => none) "technology" "s" rfl

/-- C5, counterexample: two runs that fail with different internal
exception texts return different AnalysisResult values — the `error` field
of the returned dict carries `str(e)` verbatim, so the caller-visible
result does depend on the exception text. -/
theorem C5_counterexample :
    (analyze_sector (.error "exception text A") (fun _ => .ok "r") "t0"
        (fun _ => none) "technology" "s").1
      ≠ (analyze_sector (.error "exception text B") (fun _ => .ok "r") "t0"
          (fun _ => none) "technology" "s").1 := by
  intro h
  have herr := congrArg AnalysisResult.error h
  have hA : (analyze_sector (.error "exception text A") (fun _ => .ok "r") "t0"
      (fun _ => none) "technology" "s").1.error = some "exception text A" := rfl
  have hB : (analyze_sector (.error "exception text B") (fun _ => .ok "r") "t0"
      (fun _ => none) "technology" "s").1.error = some "exception text B" := rfl
  rw [hA, hB] at herr
  simp at herr

/-- C5, amended: on an unexpected internal fault the returned result is
generic in every field except `error`: two faulting runs (same request,
same timestamp) with different exception texts agree on sector, analysis
body, data_sources, generated_at and status, and differ exactly in the
`error` field, which carries the internal exception text verbatim. -/
theorem C5_error_field_carries_exception
    (collect1 collect2 : Except String MarketData)
    (synth1 synth2 : MarketData → Except String String)
    (now : String) (cache : AnalysisCache) (sector user_session e1 e2 : String)
    (hmiss : cache (user_session ++ "_" ++ sector) = none)
    (hfault1 : collect1 = .error e1 ∨
      ∃ md, collect1 = .ok md ∧ synth1 md = .error e1)
    (hfault2 : collect2 = .error e2 ∨
      ∃ md, collect2 = .ok md ∧ synth2 md = .error e2) :
    (analyze_sector collect1 synth1 now cache sector user_session).1.sector
        = (analyze_sector collect2 synth2 now cache sector user_session).1.sector ∧
    (analyze_sector collect1 synth1 now cache sector user_session).1.analysis
        = (analyze_sector collect2 synth2 now cache sector user_session).1.analysis ∧
    (analyze_sector collect1 synth1 now cache sector user_session).1.data_sources
        = (analyze_sector collect2 synth2 now cache sector user_session).1.data_sources ∧
    (analyze_sector collect1 synth1 now cache sector user_session).1.generated_at
        = (analyze_sector collect2 synth2 now cache sector user_session).1.generated_at ∧
    (analyze_sector collect1 synth1 now cache sector user_session).1.status
        = (analyze_sector collect2 synth2 now cache sector user_session).1.status ∧
    (analyze_sector collect1 synth1 now cache sector user_session).1.error = some e1 ∧
    (analyze_sector collect2 synth2 now cache sector user_session).1.error = some e2 := by
  rw [analyze_sector_fault collect1 synth1 now cache sector user_session e1
        hmiss hfault1,
      analyze_sector_fault collect2 synth2 now cache sector user_session e2
        hmiss hfault2]
  exact ⟨rfl, rfl, rfl, rfl, rfl, rfl, rfl⟩

/-- C5 witness: two concrete faulting runs with distinct exception texts. -/
theorem C5_witness :
    (analyze_sector (.error "ValueError: a") (fun _ => .ok "r") "t0"
        (fun _ => none) "technology" "s").1.status
      = (analyze_sector (.error "KeyError: b") (fun _ => .ok "r") "t0"
          (fun _ => none) "technology" "s").1.status ∧
    (analyze_sector (.error "ValueError: a") (fun _ => .ok "r") "t0"
        (fun _ => none) "technology" "s").1.error = some "ValueError: a" :=
  ⟨(C5_error_field_carries_exception (.error "ValueError: a") (.error "KeyError: b")
      (fun _ => .ok "r") (fun _ => .ok "r") "t0" (fun _ => none) "technology" "s"
      "ValueError: a" "KeyError: b" rfl (Or.inl rfl) (Or.inl rfl)).2.2.2.2.1,
   (C5_error_field_carries_exception (.error "ValueError: a") (.error "KeyError: b")
      (fun _ => .ok "r") (fun _ => .ok "r") "t0" (fun _ => none) "technology" "s"
      "ValueError: a" "KeyError: b" rfl (Or.inl rfl) (Or.inl rfl)).2.2.2.2.2.1⟩

/-- C8, counterexample: the error-status result of a concrete faulting run
carries no `data_sources` key, while the claim requires the dataSources
sequence to be present in the error result just as in the success
result. -/
theorem C8_counterexample :
    (analyze_sector (.error "boom") (fun _ => .ok "r") "t0"
        (fun _ => none) "technology" "s").1.status = "error" ∧
    (analyze_sector (.error "boom") (fun _ => .ok "r") "t0"
        (fun _ => none) "technology" "s").1.data_sources = none :=
  ⟨rfl, rfl⟩

/-- C8, amended: the success result carries sector, analysis,
data_sources, generated_at and status (and no error key); the error
result carries sector, analysis, error, generated_at and status but omits
the data_sources key. -/
theorem C8_result_field_shapes
    (synthOutcome : MarketData → Except String String) (md : MarketData)
    (rep : String) (collectF : Except String MarketData)
    (synthF : MarketData → Except String String)
    (now : String) (cache : AnalysisCache) (sector user_session e : String)
    (hmiss : cache (user_session ++ "_" ++ sector) = none)
    (hsyn : synthOutcome md = .ok rep)
    (hfault : collectF = .error e ∨
      ∃ md2, collectF = .ok md2 ∧ synthF md2 = .error e) :
    ((analyze_sector (.ok md) synthOutcome now cache sector user_session).1
      = { sector := sector, analysis := rep, data_sources := some md.sources,
          generated_at := now, status := "success", error := none }) ∧
    ((analyze_sector collectF synthF now cache sector user_session).1
      = { sector := sector, analysis := error_analysis_text sector,
          data_sources := none, generated_at := now, status := "error",
          error := some e }) := by
  rw [analyze_sector_success synthOutcome md rep now cache sector
        user_session hmiss hsyn,
      analyze_sector_fault collectF synthF now cache sector user_session e
        hmiss hfault]
  exact ⟨rfl, rfl⟩

/-- C8 witness: concrete success and faulting runs exhibiting both field
shapes. -/
theorem C8_witness :
    (analyze_sector (.ok mdEx) (fun _ => .ok "report") "t0"
        (fun _ => none) "technology" "s").1
      = { sector := "technology", analysis := "report",
          data_sources := some mdEx.sources, generated_at := "t0",
          status := "success", error := none } ∧
    (analyze_sector (.error "boom") (fun _ => .ok "report") "t0"
        (fun _ => none) "technology" "s").1
      = { sector := "technology", analysis := error_analysis_text "technology",
          data_sources := none, generated_at := "t0", status := "error",
          error := some "boom" } :=
  C8_result_field_shapes (fun _ => .ok "report") mdEx "report" (.error "boom")
    (fun _ => .ok "report") "t0" (fun _ => none) "technology" "s" "boom"
    rfl rfl (Or.inl rfl)

/-- C4, counterexample: a credential that decodes to the known subject
`"alice"` marked inactive fails with status code 400 (`"Inactive user"`),
while a missing subject fails with 401 — the inactive case does NOT use
the Unauthenticated code. -/
theorem C4_counterexample :
    get_current_user (fun _ => .ok { sub := some "alice" })
        (fun _ => some { username := "alice", disabled := true })
        (some "token")
      = .error { status_code := 400, detail := "Inactive user" } ∧
    get_current_user (fun _ => .ok { sub := none })
        (fun _ => some { username := "alice", disabled := true })
        (some "token")
      = .error { status_code := 401, detail := "Could not validate credentials" } :=
  ⟨rfl, rfl⟩

/-- C4, amended: a decode error, a missing subject and an unknown subject
all fail with status 401, but a known subject marked inactive fails with
status 400 (`"Inactive user"`) — a different code from the other three
cases. -/
theorem C4_inactive_uses_400
    (verify : String → Except String TokenPayload)
    (get_user : String → Option UserRecord) :
    (∀ tok e, verify tok = .error e →
      get_current_user verify get_user (some tok)
        = .error { status_code := 401, detail := "Could not validate credentials" }) ∧
    (∀ tok p, verify tok = .ok p → p.sub = none →
      get_current_user verify get_user (some tok)
        = .error { status_code := 401, detail := "Could not validate credentials" }) ∧
    (∀ tok p u, verify tok = .ok p → p.sub = some u → get_user u = none →
      get_current_user verify get_user (some tok)
        = .error { status_code := 401, detail := "User not found" }) ∧
    (∀ tok p u r, verify tok = .ok p → p.sub = some u → get_user u = some r →
      r.disabled = true →
      get_current_user verify get_user (some tok)
        = .error { status_code := 400, detail := "Inactive user" }) := by
  refine ⟨?_, ?_, ?_, ?_⟩
  · intro tok e hv
    simp [get_current_user, hv]
  · intro tok p hv hsub
    simp [get_current_user, hv, hsub]
  · intro tok p u hv hsub hu
    simp [get_current_user, hv, hsub, hu]
  · intro tok p u r hv hsub hu hdis
    simp [get_current_user, hv, hsub, hu, hdis]

/-- C4 witness: concrete collaborators exercising the inactive-user case
through the theorem. -/
theorem C4_witness :
    get_current_user (fun _ => .ok { sub := some "bob" })
        (fun _ => some { username := "bob", disabled := true })
        (some "token")
      = .error { status_code := 400, detail := "Inactive user" } :=
  (C4_inactive_uses_400 (fun _ => .ok { sub := some "bob" })
      (fun _ => some { username := "bob", disabled := true })).2.2.2
    "token" { sub := some "bob" } "bob" { username := "bob", disabled := true }
    rfl rfl rfl rfl

/-- C9: with the generative backend unconfigured, the report synthesiser
computes exactly the deterministic template fallback, a pure function of
`(sector, market-data)` — any two invocations on the same fixed input
yield byte-identical text. -/
theorem C9_fallback_deterministic (sector : String) (market_data : MarketData)
    (r1 r2 : String)
    (h1 : r1 = analyze_sector_data none sector market_data)
    (h2 : r2 = analyze_sector_data none sector market_data) :
    r1 = r2 ∧ r1 = generate_fallback_analysis sector market_data := by
  subst h1
  subst h2
  exact ⟨rfl, rfl⟩

/-- C9 witness: two concrete invocations on the same input coincide with
the fallback text. -/
theorem C9_witness :
    analyze_sector_data none "technology" mdEx
        = analyze_sector_data none "technology" mdEx ∧
    analyze_sector_data none "technology" mdEx
        = generate_fallback_analysis "technology" mdEx :=
  C9_fallback_deterministic "technology" mdEx _ _ rfl rfl

/-- C7: hour-bucketed session keys.  (i) two calls for the same identity
and origin whose timestamps share an hour bucket return the same session
key; (ii) every call increments the returned record's request count by
exactly one (so the count grows monotonically over the record's
lifetime); (iii) a record's first call leaves it with request count 1;
(iv) a call in a later hour returns a different key, and (v) when that
key is fresh its record has request count 1. -/
theorem C7_session_bucketing (store : SessionStore) (u ip : String)
    (g g2 : Bool) (t1 t2 t3 : Nat)
    (hsame : t1 / 3600 = t2 / 3600) (hlater : t1 / 3600 < t3 / 3600) :
    ((get_user_session store u ip g t1).1 = (get_user_session store u ip g2 t2).1) ∧
    (∀ (s : SessionStore) (gg : Bool) (t : Nat),
      ((get_user_session s u ip gg t).2 (get_user_session s u ip gg t).1).map
          SessionRecord.request_count
        = some ((match s (session_key_of u ip t) with
                 | some r => r.request_count
                 | none => 0) + 1)) ∧
    (∀ (s : SessionStore) (gg : Bool) (t : Nat),
      s (session_key_of u ip t) = none →
      (get_user_session s u ip gg t).2 (get_user_session s u ip gg t).1
        = some { username := u, ip := ip, created_at := t, request_count := 1,
                 is_guest := gg, last_seen := some t }) ∧
    ((get_user_session store u ip g t3).1 ≠ (get_user_session store u ip g t1).1) ∧
    (store (session_key_of u ip t3) = none →
      ((get_user_session store u ip g t3).2 (get_user_session store u ip g t3).1).map
          SessionRecord.request_count = some 1) := by
  refine ⟨?_, ?_, ?_, ?_, ?_⟩
  · simp [get_user_session, session_key_of, hsame]
  · intro s gg t
    rcases h : s (session_key_of u ip t) with _ | r <;>
      simp [get_user_session, h]
  · intro s gg t h
    simp [get_user_session, h]
  · show session_key_of u ip t3 ≠ session_key_of u ip t1
    exact session_key_of_ne u ip t3 t1 (by omega)
  · intro hfresh
    simp [get_user_session, hfresh]

/-- C7 witness: with an empty store, the key for a timestamp two hours
later differs from the key for timestamp 0. -/
theorem C7_witness :
    (get_user_session (fun _ => none) "alice" "1.2.3.4" true 7200).1
      ≠ (get_user_session (fun _ => none) "alice" "1.2.3.4" true 0).1 :=
  (C7_session_bucketing (fun _ => none) "alice" "1.2.3.4" true true 0 10 7200
      rfl (by decide)).2.2.2.1

/-- C10: (i) after a call, the returned session key maps to a record with
request count at least 1; (ii) a subsequent call resolving to the same key
changes only the request count (by one) and the last-seen timestamp,
preserving username, ip, creation time and guest flag; (iii) the expiry
sweep keeps exactly the records whose age since creation is at most 24
hours, each kept record unchanged. -/
theorem C10_session_frame (store : SessionStore) (u ip : String)
    (g g2 : Bool) (now now2 : Nat) :
    (∃ r, (get_user_session store u ip g now).2 (get_user_session store u ip g now).1
        = some r ∧ 1 ≤ r.request_count) ∧
    (now / 3600 = now2 / 3600 →
      ∀ r, (get_user_session store u ip g now).2 (session_key_of u ip now) = some r →
        ∃ r2,
          (get_user_session ((get_user_session store u ip g now).2) u ip g2 now2).2
              (session_key_of u ip now) = some r2 ∧
          r2.username = r.username ∧ r2.ip = r.ip ∧
          r2.created_at = r.created_at ∧ r2.is_guest = r.is_guest ∧
          r2.request_count = r.request_count + 1 ∧ r2.last_seen = some now2) ∧
    (∀ (s : SessionStore) (t : Nat) (k : String) (r : SessionRecord),
      cleanup_old_sessions s t k = some r ↔ (s k = some r ∧ t - r.created_at ≤ 86400)) := by
  refine ⟨?_, ?_, ?_⟩
  · rcases h : store (session_key_of u ip now) with _ | r <;>
      simp [get_user_session, h]
  · intro hsame r hr
    have hkey : session_key_of u ip now2 = session_key_of u ip now := by
      simp [session_key_of, hsame]
    refine ⟨{ r with request_count := r.request_count + 1, last_seen := some now2 },
      ?_, rfl, rfl, rfl, rfl, rfl, rfl⟩
    show (if session_key_of u ip now = session_key_of u ip now2 then _ else _) = _
    rw [hkey, if_pos rfl]
    simp [hr]
  · intro s t k r
    unfold cleanup_old_sessions
    rcases h : s k with _ | r' <;> simp
    constructor
    · rintro ⟨hage, rfl⟩
      exact ⟨rfl, hage⟩
    · rintro ⟨rfl, hage⟩
      exact ⟨hage, rfl⟩

/-- C10 witness: two same-hour calls on an empty store leave the record
with count 2 and last-seen 60, all identity fields preserved. -/
theorem C10_witness :
    ∃ r2,
      (get_user_session ((get_user_session (fun _ => none) "alice" "1.2.3.4" true 50).2)
          "alice" "1.2.3.4" true 60).2 (session_key_of "alice" "1.2.3.4" 50) = some r2 ∧
      r2.username = "alice" ∧ r2.ip = "1.2.3.4" ∧
      r2.created_at = 50 ∧ r2.is_guest = true ∧
      r2.request_count = 2 ∧ r2.last_seen = some 60 :=
  (C10_session_frame (fun _ => none) "alice" "1.2.3.4" true true 50 60).2.1 rfl
    { username := "alice", ip := "1.2.3.4", created_at := 50,
      request_count := 1, is_guest := true, last_seen := some 50 }
    (by decide)

end TradeBackend
